import Mathlib

/-!
Verification of the FlexiMart ETL pipeline (part1-database-etl/etl_pipeline.py).

This file gives a shallow embedding of the pipeline's pure transformation
logic: the field normalisers (`parse_date`, `normalise_phone`,
`normalise_city`, `normalise_category`), the three entity cleaners
(`transform_customers`, `transform_products`, `transform_sales`), the
order/order-item reconciliation loop (`insert_orders_and_items`) and the
control flow of `main`, together with proofs of the data-quality
invariants stated in the design document.

Modelling conventions:
* a pandas dataframe cell read with `dtype=str` is `Option String`
  (`none` is NaN);
* Python `float` arithmetic is modelled exactly over `ℚ` (the two-decimal
  rounding used by the pipeline is modelled as round-half-to-even over
  `ℚ`, matching the float behaviour on the decimal inputs involved);
* the permissive `pandas.to_datetime` fallback parsers are external
  library code, so they are a parameter (`Fallback`) of the embedding;
* MySQL storage assigns surrogate keys `1, 2, …` in insertion order after
  a truncate; a storage failure is a `mysql.connector.Error` raised at one
  of the load stage's report-observable failure points (`DbFailurePoint`),
  which the source catches around the whole load stage.
-/

/-- `str(x)` applied to a dataframe cell: NaN prints as `"nan"`. -/
def pyStrOfOpt : Option String → String
  | none => "nan"
  | some s => s

/-- Python `str.strip()`: drop whitespace from both ends, defined over
the character list so that it evaluates by kernel reduction. -/
def pyStrip (s : String) : String :=
  String.mk (((s.toList.dropWhile Char.isWhitespace).reverse.dropWhile Char.isWhitespace).reverse)

/-- Python `str.lower` (ASCII), defined over the character list. -/
def pyLower (s : String) : String := String.mk (s.toList.map Char.toLower)

/-- Helper for Python `str.title`: the boolean records whether the
previous character was a letter. -/
def titleAux : Bool → List Char → List Char
  | _, [] => []
  | prevAlpha, c :: cs =>
    if c.isAlpha then
      (if prevAlpha then c.toLower else c.toUpper) :: titleAux true cs
    else
      c :: titleAux false cs

/-- Python `str.title` (ASCII). -/
def pyTitle (s : String) : String := String.mk (titleAux false s.toList)

/-- The empty/NaN sentinel test used throughout the source:
`s == "" or s.lower() in {"nan", "none", "null"}`. -/
def isNullToken (s : String) : Bool :=
  s = "" || pyLower s = "nan" || pyLower s = "none" || pyLower s = "null"

/-- Numeric value of a list of decimal digit characters. -/
def digitsVal (cs : List Char) : Nat :=
  cs.foldl (fun a c => a * 10 + (c.toNat - 48)) 0

/-- All characters are decimal digits. -/
def allDigits (cs : List Char) : Bool := cs.all Char.isDigit

/-- Exponent part of a float literal: optional sign then digits. -/
def expVal (cs : List Char) : Option ℤ :=
  let (sg, ds) :=
    match cs with
    | '+' :: t => ((1 : ℤ), t)
    | '-' :: t => ((-1 : ℤ), t)
    | t => ((1 : ℤ), t)
  if ds ≠ [] && allDigits ds then some (sg * (digitsVal ds : ℤ)) else none

/-- `10^e` over `ℚ` for an integer exponent. -/
def qpow10 (e : ℤ) : ℚ :=
  if 0 ≤ e then (10 : ℚ) ^ e.toNat else 1 / (10 : ℚ) ^ (-e).toNat

/-- `pd.to_numeric(s, errors="coerce")` on a single string: parses an
optionally signed decimal literal with optional fraction and exponent,
returning `none` (NaN) on failure. -/
def toNum (s : String) : Option ℚ :=
  let cs := (pyStrip s).toList
  let (sg, cs1) :=
    match cs with
    | '+' :: t => ((1 : ℚ), t)
    | '-' :: t => ((-1 : ℚ), t)
    | t => ((1 : ℚ), t)
  let ip := cs1.takeWhile Char.isDigit
  let r1 := cs1.dropWhile Char.isDigit
  let mantissa : Option (ℚ × List Char) :=
    match r1 with
    | '.' :: t =>
      let fp := t.takeWhile Char.isDigit
      let r2 := t.dropWhile Char.isDigit
      if ip.isEmpty && fp.isEmpty then none
      else some ((digitsVal ip : ℚ) + (digitsVal fp : ℚ) / (10 : ℚ) ^ fp.length, r2)
    | _ => if ip.isEmpty then none else some ((digitsVal ip : ℚ), r1)
  match mantissa with
  | none => none
  | some (v, rest) =>
    match rest with
    | [] => some (sg * v)
    | 'e' :: t => (expVal t).map (fun e => sg * v * qpow10 e)
    | 'E' :: t => (expVal t).map (fun e => sg * v * qpow10 e)
    | _ => none

/-- `pd.to_numeric` over an optional cell: NaN stays NaN. -/
def toNumOpt (o : Option String) : Option ℚ := o.bind toNum

/-- Round to the nearest integer, ties to even (the rounding of IEEE
doubles used by `round(·, 2)` and `f"{x:.2f}"`). -/
def rhe (q : ℚ) : ℤ :=
  let f := Rat.floor q
  let r := q - (f : ℚ)
  if r < 1 / 2 then f
  else if 1 / 2 < r then f + 1
  else if f % 2 = 0 then f else f + 1

/-- `round(x, 2)` over `ℚ`. -/
def round2 (q : ℚ) : ℚ := ((rhe (q * 100) : ℤ) : ℚ) / 100

/-- Two-digit zero-padded decimal rendering. -/
def twoDigits (n : Nat) : String := (if n < 10 then "0" else "") ++ toString n

/-- `f"{x:.2f}"`: fixed two-decimal rendering of a float. -/
def fmt2str (q : ℚ) : String :=
  let n := rhe (q * 100)
  let sign := if n < 0 ∨ (n = 0 ∧ q < 0) then "-" else ""
  sign ++ toString (n.natAbs / 100) ++ "." ++ twoDigits (n.natAbs % 100)

/-- Python `int(x)` on a float: truncation toward zero. -/
def pyInt (q : ℚ) : ℤ := if 0 ≤ q then Rat.floor q else -Rat.floor (-q)

/-- Insert into a sorted list (ascending). -/
def insertSorted (x : ℚ) : List ℚ → List ℚ
  | [] => [x]
  | y :: ys => if x ≤ y then x :: y :: ys else y :: insertSorted x ys

/-- Insertion sort, ascending. -/
def sortQ (l : List ℚ) : List ℚ := l.foldr insertSorted []

/-- `pandas.Series.median` over the non-NaN values: `none` on an empty
series, the middle element for odd length, the mean of the two middle
elements for even length. -/
def medianQ (l : List ℚ) : Option ℚ :=
  let n := l.length
  if n = 0 then none
  else
    let s := sortQ l
    if n % 2 = 1 then some (s.getD (n / 2) 0)
    else some ((s.getD (n / 2 - 1) 0 + s.getD (n / 2) 0) / 2)

/-- A parsed calendar date (`datetime.date`). -/
structure PDate where
  year : Nat
  month : Nat
  day : Nat
deriving DecidableEq, Repr

/-- Gregorian leap-year rule. -/
def isLeap (y : Nat) : Bool := y % 4 = 0 && (y % 100 ≠ 0 || y % 400 = 0)

/-- Days in a month. -/
def daysInMonth (y m : Nat) : Nat :=
  if m = 2 then (if isLeap y then 29 else 28)
  else if m = 4 ∨ m = 6 ∨ m = 9 ∨ m = 11 then 30
  else 31

/-- `datetime.date(y, m, d)` validity (year `1..9999` enforced upstream by
the 4-digit `%Y` pattern together with `MINYEAR = 1`). -/
def mkDate (y m d : Nat) : Option PDate :=
  if 1 ≤ y && 1 ≤ m && m ≤ 12 && 1 ≤ d && d ≤ daysInMonth y m then
    some ⟨y, m, d⟩
  else none

/-- `strptime`'s `%Y`: exactly four digits. -/
def parseY (t : String) : Option Nat :=
  let cs := t.toList
  if cs.length = 4 && allDigits cs then some (digitsVal cs) else none

/-- `strptime`'s `%m`/`%d`: one or two digits within the given bounds
(zero excluded, matching the `strptime` patterns). -/
def parseBounded (lo hi : Nat) (t : String) : Option Nat :=
  let cs := t.toList
  if (cs.length = 1 || cs.length = 2) && allDigits cs then
    let v := digitsVal cs
    if lo ≤ v && v ≤ hi then some v else none
  else none

/-- Component orders of the three-field date formats used by the source. -/
inductive Ord3 where
  | YMD
  | DMY
  | MDY
deriving DecidableEq, Repr

/-- Split on a separator character, keeping empty components (the
semantics of splitting used by the `strptime` embedding), defined over
the character list so that it evaluates by kernel reduction. -/
def splitCharAux (sep : Char) : List Char → List Char → List String
  | [], acc => [String.mk acc.reverse]
  | c :: cs, acc =>
    if c = sep then String.mk acc.reverse :: splitCharAux sep cs []
    else splitCharAux sep cs (c :: acc)

/-- Split a string on a separator character. -/
def splitChar (sep : Char) (s : String) : List String := splitCharAux sep s.toList []

/-- `datetime.strptime(s, fmt).date()` for one of the source's separator
formats: the string must be exactly three components joined by `sep`. -/
def tryFmt (o : Ord3) (sep : Char) (s : String) : Option PDate :=
  match splitChar sep s with
  | [a, b, c] =>
    match o with
    | .YMD =>
      (parseY a).bind fun y => (parseBounded 1 12 b).bind fun m =>
        (parseBounded 1 31 c).bind fun d => mkDate y m d
    | .DMY =>
      (parseBounded 1 31 a).bind fun d => (parseBounded 1 12 b).bind fun m =>
        (parseY c).bind fun y => mkDate y m d
    | .MDY =>
      (parseBounded 1 12 a).bind fun m => (parseBounded 1 31 b).bind fun d =>
        (parseY c).bind fun y => mkDate y m d
  | _ => none

/-- The source's `DATE_FORMATS` list, in priority order:
`%Y-%m-%d`, `%d/%m/%Y`, `%m-%d-%Y`, `%m/%d/%Y`, `%d-%m-%Y`. -/
def DATE_FORMATS : List (String → Option PDate) :=
  [tryFmt .YMD '-', tryFmt .DMY '/', tryFmt .MDY '-', tryFmt .MDY '/', tryFmt .DMY '-']

/-- Try each format in order, returning the first success. -/
def tryFormats (s : String) : List (String → Option PDate) → Option PDate
  | [] => none
  | f :: fs =>
    match f s with
    | some d => some d
    | none => tryFormats s fs

/-- The two permissive `pandas.to_datetime` fallback parsers (external
library code, hence parameters of the embedding): `monthFirst` is the
`dayfirst=False` call, `dayFirst` the `dayfirst=True` call. -/
structure Fallback where
  monthFirst : String → Option PDate
  dayFirst : String → Option PDate

/-- A fallback pair that never parses (used to instantiate witnesses). -/
def fbNone : Fallback := ⟨fun _ => none, fun _ => none⟩

/-- `parse_date` from the source: sentinel tokens are absent, then the
five explicit formats in priority order, then the permissive fallback
month-first, then day-first. -/
def parse_date (fb : Fallback) : Option String → Option PDate
  | none => none
  | some v =>
    let s := pyStrip v
    if isNullToken s then none
    else
      match tryFormats s DATE_FORMATS with
      | some d => some d
      | none =>
        match fb.monthFirst s with
        | some d => some d
        | none => fb.dayFirst s

/-- `normalise_phone` from the source: strip, sentinel tokens absent,
keep the digits, require at least ten, format the last ten. -/
def normalise_phone : Option String → Option String
  | none => none
  | some v =>
    let s := pyStrip v
    if isNullToken s then none
    else
      let digits := s.toList.filter Char.isDigit
      if digits.length < 10 then none
      else some ("+91-" ++ String.mk (digits.drop (digits.length - 10)))

/-- `normalise_city` from the source. -/
def normalise_city : Option String → Option String
  | none => none
  | some v =>
    let s := pyStrip v
    if isNullToken s then none else some (pyTitle s)

/-- `normalise_category` from the source (a NaN cell stringifies to
`"nan"` before the lookup). -/
def normalise_category (cat : Option String) : String :=
  let s := match cat with
    | none => "nan"
    | some v => pyStrip v
  let key := pyLower s
  if key = "electronics" then "Electronics"
  else if key = "fashion" then "Fashion"
  else if key = "groceries" then "Groceries"
  else if s = "" then "Unknown"
  else pyTitle s

/-- `series.replace({"": None})` on one cell: the empty string becomes
absent, everything else is unchanged. -/
def emptyToNone (o : Option String) : Option String :=
  match o with
  | none => none
  | some s => if s = "" then none else some s

/-- `series.replace({"": None}).fillna("0")` on one cell: missing and
empty become `"0"`. -/
def fillEmpty0 (o : Option String) : String :=
  match o with
  | none => "0"
  | some s => if s = "" then "0" else s

/-- Quality-ledger counters, one per entity stream. -/
structure QualityCounts where
  rows_read : Nat := 0
  duplicates_removed : Nat := 0
  rows_dropped : Nat := 0
  missing_filled : Nat := 0
  loaded : Nat := 0
  notes : List String := []
deriving DecidableEq, Repr

/-- Strip a cell if it is a string (`x.strip() if isinstance(x, str)`). -/
def stripCell (o : Option String) : Option String := o.map pyStrip

/-- Python-dict lookup over an association list built by repeated
assignment: the last binding for a key wins. -/
def dget {α : Type} (m : List (String × α)) (k : String) : Option α :=
  (m.reverse.find? (fun p => decide (p.1 = k))).map (fun p => p.2)

/-- Worker for keep-first deduplication: `seen` holds the key values of
rows already kept. -/
def dedupByAux {α β : Type} [DecidableEq β] (key : α → β) (seen : List β) :
    List α → List α
  | [] => []
  | x :: xs =>
    if key x ∈ seen then dedupByAux key seen xs
    else x :: dedupByAux key (key x :: seen) xs

/-- `drop_duplicates(keep="first")` on a key: keep the first row with
each key value, in input order. -/
def dedupBy {α β : Type} [DecidableEq β] (key : α → β) (l : List α) : List α :=
  dedupByAux key [] l

/-- A row of `customers_raw.csv` as read with `dtype=str`. -/
structure RawCustomer where
  customer_id : Option String
  first_name : Option String
  last_name : Option String
  email : Option String
  phone : Option String
  city : Option String
  registration_date : Option String
deriving DecidableEq, Repr

/-- A row of `products_raw.csv`. -/
structure RawProduct where
  product_id : Option String
  product_name : Option String
  category : Option String
  price : Option String
  stock_quantity : Option String
deriving DecidableEq, Repr

/-- A row of `sales_raw.csv`. -/
structure RawSale where
  transaction_id : Option String
  customer_id : Option String
  product_id : Option String
  transaction_date : Option String
  quantity : Option String
  unit_price : Option String
  status : Option String
deriving DecidableEq, Repr

/-- The per-cell strip map applied to a customer row. -/
def stripCustomer (r : RawCustomer) : RawCustomer :=
  { customer_id := stripCell r.customer_id
    first_name := stripCell r.first_name
    last_name := stripCell r.last_name
    email := stripCell r.email
    phone := stripCell r.phone
    city := stripCell r.city
    registration_date := stripCell r.registration_date }

/-- The per-cell strip map applied to a product row. -/
def stripProduct (r : RawProduct) : RawProduct :=
  { product_id := stripCell r.product_id
    product_name := stripCell r.product_name
    category := stripCell r.category
    price := stripCell r.price
    stock_quantity := stripCell r.stock_quantity }

/-- The per-cell strip map applied to a sales row. -/
def stripSale (r : RawSale) : RawSale :=
  { transaction_id := stripCell r.transaction_id
    customer_id := stripCell r.customer_id
    product_id := stripCell r.product_id
    transaction_date := stripCell r.transaction_date
    quantity := stripCell r.quantity
    unit_price := stripCell r.unit_price
    status := stripCell r.status }

/-- A customer row after column standardisation (still carrying the raw
`customer_id` used to build the reconciliation map). -/
structure CustWork where
  customer_id : Option String
  first_name : Option String
  last_name : Option String
  email : Option String
  phone : Option String
  city : Option String
  registration_date : Option PDate
deriving DecidableEq, Repr

/-- A cleaned customer record: the six insertable columns. -/
structure Customer where
  first_name : Option String
  last_name : Option String
  email : Option String
  phone : Option String
  city : Option String
  registration_date : Option PDate
deriving DecidableEq, Repr

/-- Column standardisation of one customer row (strip, empty email to
absent, phone/city/date normalisation). -/
def custWork (fb : Fallback) (r : RawCustomer) : CustWork :=
  let r := stripCustomer r
  { customer_id := r.customer_id
    first_name := r.first_name
    last_name := r.last_name
    email := emptyToNone r.email
    phone := normalise_phone r.phone
    city := normalise_city r.city
    registration_date := parse_date fb r.registration_date }

/-- Drop the raw identifier column, keeping the six insertable columns. -/
def custProj (r : CustWork) : Customer :=
  { first_name := r.first_name
    last_name := r.last_name
    email := r.email
    phone := r.phone
    city := r.city
    registration_date := r.registration_date }

/-- The standardised customer rows, in input order. -/
def custWorks (fb : Fallback) (df : List RawCustomer) : List CustWork :=
  df.map (custWork fb)

/-- Customer rows surviving the missing-email drop. -/
def custKept (fb : Fallback) (df : List RawCustomer) : List CustWork :=
  (custWorks fb df).filter (fun r => r.email.isSome)

/-- Customer rows surviving keep-first deduplication by email. -/
def custDedup (fb : Fallback) (df : List RawCustomer) : List CustWork :=
  dedupBy (fun r => r.email) (custKept fb df)

/-- Note text for the missing-email drop. -/
def custDropNote (n : Nat) : String :=
  "Dropped " ++ toString n ++ " customer rows due to missing email (NOT NULL constraint)."

/-- `transform_customers` from the source: returns the cleaned rows, the
quality counters, and the raw-id → email reconciliation map. -/
def transform_customers (fb : Fallback) (df : List RawCustomer) :
    List Customer × QualityCounts × List (String × String) :=
  let works := custWorks fb df
  let kept := custKept fb df
  let droppedEmail := works.length - kept.length
  let dd := custDedup fb df
  let dups := kept.length - dd.length
  let raw_to_email := dd.map (fun r => (pyStrOfOpt r.customer_id, r.email.getD ""))
  let qc : QualityCounts :=
    { rows_read := df.length
      duplicates_removed := dups
      rows_dropped := droppedEmail
      missing_filled := 0
      loaded := 0
      notes := if droppedEmail ≠ 0 then [custDropNote droppedEmail] else [] }
  (dd.map custProj, qc, raw_to_email)

/-- A product row after column standardisation, before the price fill. -/
structure ProdWork where
  product_id : Option String
  product_name : String
  category : String
  price : Option String
  stock_str : String
deriving DecidableEq, Repr

/-- A cleaned product record: the four insertable columns after numeric
coercion. -/
structure CleanedProduct where
  product_name : String
  category : String
  price : Option ℚ
  stock_quantity : ℤ
deriving DecidableEq, Repr

/-- Column standardisation of one product row: strip, `astype(str)` name,
category normalisation, empty stock to `"0"`, empty price to absent. -/
def prodWork (r : RawProduct) : ProdWork :=
  let r := stripProduct r
  { product_id := r.product_id
    product_name := pyStrip (pyStrOfOpt r.product_name)
    category := normalise_category r.category
    price := emptyToNone r.price
    stock_str := fillEmpty0 r.stock_quantity }

/-- The standardised product rows, in input order. -/
def prodWorks (df : List RawProduct) : List ProdWork := df.map prodWork

/-- Number of product rows whose stock cell is missing or empty (counted
on the stripped frame, before the fill). -/
def stockMissingCount (df : List RawProduct) : Nat :=
  (df.map stripProduct).countP
    (fun r => decide (r.stock_quantity = none ∨ r.stock_quantity = some ""))

/-- The stripped sales rows with a present, non-empty `product_id`
(the frame the per-product median is grouped over). -/
def salesForMedian (dfS : List RawSale) : List RawSale :=
  (dfS.map stripSale).filter
    (fun r =>
      match r.product_id with
      | some s => decide (s ≠ "")
      | none => false)

/-- The numerically coercible unit prices of the sales rows whose
`product_id` equals `pid`. -/
def groupVals (dfS : List RawSale) (pid : String) : List ℚ :=
  (salesForMedian dfS).filterMap
    (fun r => if pyStrOfOpt r.product_id = pid then toNumOpt r.unit_price else none)

/-- `median_by_pid.get(pid)` from the source, with the NaN-median case
(`pid` grouped but no coercible price) folded into `none`. -/
def median_by_pid (dfS : List RawSale) (pid : String) : Option ℚ :=
  medianQ (groupVals dfS pid)

/-- The price-imputation step for one product row: a row with an absent
price gets the formatted per-product sales median if one exists. -/
def fillPrice (dfS : List RawSale) (r : ProdWork) : ProdWork :=
  match r.price with
  | some _ => r
  | none =>
    match median_by_pid dfS (pyStrOfOpt r.product_id) with
    | some m => { r with price := some (fmt2str m) }
    | none => r

/-- Product rows after the price fill. -/
def prodFilled (dfP : List RawProduct) (dfS : List RawSale) : List ProdWork :=
  (prodWorks dfP).map (fillPrice dfS)

/-- Number of product rows whose missing price was filled. -/
def prodFilledCount (dfP : List RawProduct) (dfS : List RawSale) : Nat :=
  (prodWorks dfP).countP
    (fun r => decide (r.price = none) && (median_by_pid dfS (pyStrOfOpt r.product_id)).isSome)

/-- Product rows surviving the still-missing-price drop. -/
def prodKept (dfP : List RawProduct) (dfS : List RawSale) : List ProdWork :=
  (prodFilled dfP dfS).filter (fun r => r.price.isSome)

/-- Product rows surviving keep-first deduplication by raw `product_id`. -/
def prodDedup (dfP : List RawProduct) (dfS : List RawSale) : List ProdWork :=
  dedupBy (fun r => r.product_id) (prodKept dfP dfS)

/-- Final numeric coercion of one product row. -/
def toCleanProduct (r : ProdWork) : CleanedProduct :=
  { product_name := r.product_name
    category := r.category
    price := (r.price).bind toNum
    stock_quantity := pyInt ((toNum r.stock_str).getD 0) }

/-- Note text for the unrecoverable-price drop. -/
def prodDropNote (n : Nat) : String :=
  "Dropped " ++ toString n ++ " product rows due to missing price not recoverable from sales."

/-- `transform_products` from the source: returns the cleaned rows, the
quality counters, and the raw-id → product-name reconciliation map. -/
def transform_products (dfP : List RawProduct) (dfS : List RawSale) :
    List CleanedProduct × QualityCounts × List (String × String) :=
  let filled := prodFilled dfP dfS
  let kept := prodKept dfP dfS
  let droppedPrice := filled.length - kept.length
  let dd := prodDedup dfP dfS
  let dups := kept.length - dd.length
  let raw_to_name := dd.map (fun r => (pyStrOfOpt r.product_id, r.product_name))
  let qc : QualityCounts :=
    { rows_read := dfP.length
      duplicates_removed := dups
      rows_dropped := droppedPrice
      missing_filled := stockMissingCount dfP + prodFilledCount dfP dfS
      loaded := 0
      notes := if droppedPrice ≠ 0 then [prodDropNote droppedPrice] else [] }
  (dd.map toCleanProduct, qc, raw_to_name)

/-- A sales row after standardisation: parsed date, absent-normalised
identifiers, coerced numerics. -/
structure SaleWork where
  transaction_id : Option String
  customer_id : Option String
  product_id : Option String
  order_date : Option PDate
  status : Option String
  quantity : Option ℚ
  unit_price : Option ℚ
deriving DecidableEq, Repr

/-- A cleaned sale row, still carrying the raw identifiers. -/
structure CleanedSale where
  transaction_id : Option String
  customer_id : Option String
  product_id : Option String
  order_date : Option PDate
  status : Option String
  quantity : Option ℚ
  unit_price : Option ℚ
  subtotal : ℚ
  total_amount : ℚ
deriving DecidableEq, Repr

/-- Standardisation of one (already deduplicated) sales row. -/
def saleWork (fb : Fallback) (r : RawSale) : SaleWork :=
  { transaction_id := r.transaction_id
    customer_id := emptyToNone r.customer_id
    product_id := emptyToNone r.product_id
    order_date := parse_date fb r.transaction_date
    status := r.status
    quantity := toNumOpt r.quantity
    unit_price := toNumOpt r.unit_price }

/-- Sales rows after keep-first deduplication by `transaction_id`. -/
def saleDedup (dfS : List RawSale) : List RawSale :=
  dedupBy (fun r => r.transaction_id) (dfS.map stripSale)

/-- Standardised sales rows, in input order. -/
def saleWorks (fb : Fallback) (dfS : List RawSale) : List SaleWork :=
  (saleDedup dfS).map (saleWork fb)

/-- Sales rows surviving the missing-identifier drop. -/
def saleWithIds (fb : Fallback) (dfS : List RawSale) : List SaleWork :=
  (saleWorks fb dfS).filter (fun r => r.customer_id.isSome && r.product_id.isSome)

/-- The validity test of the second drop: present date, positive
quantity, non-negative unit price. -/
def saleValidRow (r : SaleWork) : Bool :=
  r.order_date.isSome
    && (match r.quantity with
        | some q => decide (0 < q)
        | none => false)
    && (match r.unit_price with
        | some p => decide (0 ≤ p)
        | none => false)

/-- Sales rows surviving both drops. -/
def saleValid (fb : Fallback) (dfS : List RawSale) : List SaleWork :=
  (saleWithIds fb dfS).filter saleValidRow

/-- Subtotal computation and column selection for one surviving row. -/
def toCleanSale (r : SaleWork) : CleanedSale :=
  let st := round2 ((r.quantity.getD 0) * (r.unit_price.getD 0))
  { transaction_id := r.transaction_id
    customer_id := r.customer_id
    product_id := r.product_id
    order_date := r.order_date
    status := r.status
    quantity := r.quantity
    unit_price := r.unit_price
    subtotal := st
    total_amount := st }

/-- Note text for the missing-identifier drop. -/
def saleIdNote (n : Nat) : String :=
  "Dropped " ++ toString n ++ " sales rows due to missing customer_id/product_id."

/-- Note text for the invalid date/quantity/price drop. -/
def saleInvalidNote (n : Nat) : String :=
  "Dropped " ++ toString n ++ " sales rows due to invalid date/quantity/unit_price."

/-- `transform_sales` from the source. -/
def transform_sales (fb : Fallback) (dfS : List RawSale) :
    List CleanedSale × QualityCounts :=
  let dd := saleDedup dfS
  let dups := dfS.length - dd.length
  let works := saleWorks fb dfS
  let withIds := saleWithIds fb dfS
  let droppedIds := works.length - withIds.length
  let valid := saleValid fb dfS
  let droppedInvalid := withIds.length - valid.length
  let qc : QualityCounts :=
    { rows_read := dfS.length
      duplicates_removed := dups
      rows_dropped := droppedIds + droppedInvalid
      missing_filled := 0
      loaded := 0
      notes :=
        (if droppedIds ≠ 0 then [saleIdNote droppedIds] else [])
          ++ (if droppedInvalid ≠ 0 then [saleInvalidNote droppedInvalid] else []) }
  (valid.map toCleanSale, qc)

/-- An inserted `orders` row with its auto-assigned surrogate key. -/
structure Order where
  order_id : Nat
  customer_id : Nat
  order_date : Option PDate
  total_amount : ℚ
  status : Option String
deriving DecidableEq, Repr

/-- An inserted `order_items` row. -/
structure OrderItem where
  order_id : Nat
  product_id : Nat
  quantity : ℤ
  unit_price : ℚ
  subtotal : ℚ
deriving DecidableEq, Repr

/-- `r["status"] or "Pending"`: only the falsy empty string is replaced
(a NaN cell is truthy in Python and passes through). -/
def statusOr : Option String → Option String
  | some "" => some "Pending"
  | o => o

/-- Resolve one cleaned sale to surrogate `(customer, product)` keys via
the two-stage maps, exactly as the loop body tests them: customer first
(map hit, nonempty email, surrogate hit), then product likewise. -/
def resolveSale (c2e : List (String × String)) (e2id : List (String × Nat))
    (p2n : List (String × String)) (n2id : List (String × Nat))
    (r : CleanedSale) : Option (Nat × Nat) :=
  let raw_cid := pyStrOfOpt r.customer_id
  let raw_pid := pyStrOfOpt r.product_id
  match dget c2e raw_cid with
  | none => none
  | some email =>
    if email = "" then none
    else
      match dget e2id email with
      | none => none
      | some db_cid =>
        match dget p2n raw_pid with
        | none => none
        | some pname =>
          if pname = "" then none
          else
            match dget n2id pname with
            | none => none
            | some db_pid => some (db_cid, db_pid)

/-- The `orders` row inserted for a resolved sale. -/
def mkOrder (oid db_cid : Nat) (r : CleanedSale) : Order :=
  { order_id := oid
    customer_id := db_cid
    order_date := r.order_date
    total_amount := r.total_amount
    status := statusOr r.status }

/-- The `order_items` row inserted for a resolved sale. -/
def mkItem (oid db_pid : Nat) (r : CleanedSale) : OrderItem :=
  { order_id := oid
    product_id := db_pid
    quantity := pyInt (r.quantity.getD 0)
    unit_price := r.unit_price.getD 0
    subtotal := r.subtotal }

/-- The insertion loop of `insert_orders_and_items`: `nextId` is the next
auto-increment order key. Returns the inserted orders, the inserted
items, and the count of unreconcilable rows. -/
def insertLoop (c2e : List (String × String)) (e2id : List (String × Nat))
    (p2n : List (String × String)) (n2id : List (String × Nat))
    (nextId : Nat) : List CleanedSale → List Order × List OrderItem × Nat
  | [] => ([], [], 0)
  | r :: rs =>
    match resolveSale c2e e2id p2n n2id r with
    | none =>
      let rest := insertLoop c2e e2id p2n n2id nextId rs
      (rest.1, rest.2.1, rest.2.2 + 1)
    | some (db_cid, db_pid) =>
      let rest := insertLoop c2e e2id p2n n2id (nextId + 1) rs
      (mkOrder nextId db_cid r :: rest.1, mkItem nextId db_pid r :: rest.2.1, rest.2.2)

/-- `insert_orders_and_items` from the source (auto-increment keys start
at 1 after the truncate). -/
def insert_orders_and_items (sales : List CleanedSale)
    (c2e : List (String × String)) (e2id : List (String × Nat))
    (p2n : List (String × String)) (n2id : List (String × Nat)) :
    List Order × List OrderItem × Nat :=
  insertLoop c2e e2id p2n n2id 1 sales

/-- The natural-key → surrogate-key map fetched back from storage after
an insert: key `i+1` for the `i`-th inserted row (duplicate natural keys
overwrite, i.e. the last one wins under `dget`). -/
def buildKeyMap (keys : List String) : List (String × Nat) :=
  (keys.zip (List.range keys.length)).map (fun p => (p.1, p.2 + 1))

/-- The run-level note appended when reconciliation dropped rows. -/
def fkNote (n : Nat) : String :=
  "Dropped " ++ toString n
    ++ " sales rows during load because customer/product could not be mapped "
    ++ "(e.g., customers dropped due to missing email)."

/-- The note appended when the storage stage raises. -/
def mysqlNote (msg : String) : String := "MySQL Error: " ++ msg

/-- The data handed to the report collaborator. -/
structure Report where
  customer_qc : QualityCounts
  product_qc : QualityCounts
  sales_qc : QualityCounts
  extra_notes : List String
deriving DecidableEq, Repr

/-- The observable outcome of a run: either `read_csv` raised
`FileNotFoundError` (no report is written), or `write_report` received a
report. -/
inductive RunOutcome where
  | sourceMissing (file : String)
  | completed (rep : Report)
deriving DecidableEq, Repr

/-- Whether the run produced a quality report. -/
def producesReport : RunOutcome → Bool
  | .completed _ => true
  | .sourceMissing _ => false

/-- A point of the load stage where `mysql.connector.Error` can be
raised, abstracted by which report-observable mutations have already
happened when the `except` handler runs: `connect_db`, `ensure_schema`,
`truncate_tables` and a failing `insert_customers` all leave every
counter untouched (`beforeCustomers`); a failing `insert_products` runs
after `customer_qc.loaded` was assigned (`beforeProducts`); a failure in
either surrogate-key fetch or in `insert_orders_and_items` runs after
both `loaded` counters were assigned but before any sales mutation
(`beforeOrders`); a failing `conn.close()` runs after every mutation of
the successful body (`atClose`). The remaining statements of the `try`
body are pure Python and cannot raise `Error`. -/
inductive DbFailurePoint where
  | beforeCustomers
  | beforeProducts
  | beforeOrders
  | atClose
deriving DecidableEq, Repr

/-- The quality report assembled when every storage call succeeds: the
`loaded` counters are set, the unreconcilable sales are folded into the
sales stream's `rows_dropped` with the explanatory note, and the
order/item counts are appended to the run-level notes (the successful
`try` body of the source's `main`). -/
def loadedReport (fb : Fallback) (customers_raw : List RawCustomer)
    (products_raw : List RawProduct) (sales_raw : List RawSale) : Report :=
  let salesT := transform_sales fb sales_raw
  let sales_clean := salesT.1
  let sales_qc := salesT.2
  let custT := transform_customers fb customers_raw
  let customers_clean := custT.1
  let customer_qc := custT.2.1
  let raw_customer_to_email := custT.2.2
  let prodT := transform_products products_raw sales_raw
  let products_clean := prodT.1
  let product_qc := prodT.2.1
  let raw_product_to_name := prodT.2.2
  let customer_qc := { customer_qc with loaded := customers_clean.length }
  let product_qc := { product_qc with loaded := products_clean.length }
  let email_to_db_customer_id :=
    buildKeyMap (customers_clean.map (fun c => pyStrOfOpt c.email))
  let name_to_db_product_id :=
    buildKeyMap (products_clean.map (fun p => p.product_name))
  let ins := insert_orders_and_items sales_clean raw_customer_to_email
    email_to_db_customer_id raw_product_to_name name_to_db_product_id
  let orders := ins.1
  let items := ins.2.1
  let dropped_fk := ins.2.2
  let sales_qc := { sales_qc with loaded := sales_clean.length - dropped_fk }
  let sales_qc :=
    if dropped_fk ≠ 0 then
      { sales_qc with rows_dropped := sales_qc.rows_dropped + dropped_fk }
    else sales_qc
  let extra_notes :=
    (if dropped_fk ≠ 0 then [fkNote dropped_fk] else [])
      ++ ["Orders inserted: " ++ toString orders.length,
          "Order items inserted: " ++ toString items.length]
  { customer_qc := customer_qc
    product_qc := product_qc
    sales_qc := sales_qc
    extra_notes := extra_notes }

/-- `main` from the source (renamed: Lean reserves the name `main`). A
`none` input file makes `read_csv` raise `FileNotFoundError` (the three
files are read customers, products, sales in that order, outside the
`try` block). The storage collaborator is modelled by `dbError`:
`some (pt, msg)` means the load stage raises `mysql.connector.Error`
with message `msg` at failure point `pt`, which the source catches
around the whole load stage and turns into the `MySQL Error:` run note;
`none` means every storage call succeeds. -/
def etlMain (fb : Fallback) (customersFile : Option (List RawCustomer))
    (productsFile : Option (List RawProduct)) (salesFile : Option (List RawSale))
    (dbError : Option (DbFailurePoint × String)) : RunOutcome :=
  match customersFile with
  | none => .sourceMissing "customers_raw.csv"
  | some customers_raw =>
    match productsFile with
    | none => .sourceMissing "products_raw.csv"
    | some products_raw =>
      match salesFile with
      | none => .sourceMissing "sales_raw.csv"
      | some sales_raw =>
        let salesT := transform_sales fb sales_raw
        let sales_qc := salesT.2
        let custT := transform_customers fb customers_raw
        let customers_clean := custT.1
        let customer_qc := custT.2.1
        let prodT := transform_products products_raw sales_raw
        let products_clean := prodT.1
        let product_qc := prodT.2.1
        match dbError with
        | some (.beforeCustomers, msg) =>
          .completed
            { customer_qc := customer_qc
              product_qc := product_qc
              sales_qc := sales_qc
              extra_notes := [mysqlNote msg] }
        | some (.beforeProducts, msg) =>
          .completed
            { customer_qc := { customer_qc with loaded := customers_clean.length }
              product_qc := product_qc
              sales_qc := sales_qc
              extra_notes := [mysqlNote msg] }
        | some (.beforeOrders, msg) =>
          .completed
            { customer_qc := { customer_qc with loaded := customers_clean.length }
              product_qc := { product_qc with loaded := products_clean.length }
              sales_qc := sales_qc
              extra_notes := [mysqlNote msg] }
        | some (.atClose, msg) =>
          let rep := loadedReport fb customers_raw products_raw sales_raw
          .completed { rep with extra_notes := rep.extra_notes ++ [mysqlNote msg] }
        | none => .completed (loadedReport fb customers_raw products_raw sales_raw)

/-- The rows of the reconciliation input that resolve, paired with their
surrogate keys, in input order. -/
def resolvedList (c2e : List (String × String)) (e2id : List (String × Nat))
    (p2n : List (String × String)) (n2id : List (String × Nat))
    (sales : List CleanedSale) : List (CleanedSale × Nat × Nat) :=
  sales.filterMap (fun r => (resolveSale c2e e2id p2n n2id r).map (fun p => (r, p.1, p.2)))

/-- The orders the loop inserts for a resolved list, numbering from `n`. -/
def ordersFrom (n : Nat) : List (CleanedSale × Nat × Nat) → List Order
  | [] => []
  | (r, db_cid, _) :: rest => mkOrder n db_cid r :: ordersFrom (n + 1) rest

/-- The order items the loop inserts for a resolved list, numbering from
`n`. -/
def itemsFrom (n : Nat) : List (CleanedSale × Nat × Nat) → List OrderItem
  | [] => []
  | (r, _, db_pid) :: rest => mkItem n db_pid r :: itemsFrom (n + 1) rest

/-- Example customer row (full data). -/
def exCust1 : RawCustomer :=
  ⟨some "C001", some "Asha", some "Rao", some "asha@example.com",
   some "+91 98765-43210", some "mumbai", some "2024-01-15"⟩

/-- Example customer row sharing `exCust1`'s email (a later duplicate). -/
def exCust2 : RawCustomer :=
  ⟨some "C002", some "Brij", some "Lal", some "asha@example.com", none, none, none⟩

/-- Example customer row with an empty email. -/
def exCust3 : RawCustomer :=
  ⟨some "C003", some "Carl", some "Mel", some "", none, none, none⟩

/-- Example product row with a non-numeric price text. -/
def exProdAbc : RawProduct :=
  ⟨some "P1", some "Widget A", some "electronics", some "abc", some "1"⟩

/-- Example product row with a negative price text. -/
def exProdNeg : RawProduct :=
  ⟨some "P2", some "Widget B", some "fashion", some "-5", some "2"⟩

/-- Example product row with a negative stock text. -/
def exProdStockNeg : RawProduct :=
  ⟨some "P3", some "Widget C", some "groceries", some "9.99", some "-5"⟩

/-- Example product row with an empty price (the `P200` scenario). -/
def exProdP200 : RawProduct :=
  ⟨some "P200", some "Widget D", some "groceries", some "", some "5"⟩

/-- Example sales rows for the `P200` scenario: unit prices 10, 12, 14. -/
def exSalesP200 : List RawSale :=
  [⟨some "T1", some "C001", some "P200", some "2024-01-01", some "1", some "10.00", some "Done"⟩,
   ⟨some "T2", some "C001", some "P200", some "2024-01-02", some "1", some "12.00", some "Done"⟩,
   ⟨some "T3", some "C001", some "P200", some "2024-01-03", some "1", some "14.00", some "Done"⟩]

/-- The reconciliation drop counter produced inside a successful run of
`etlMain` (the `dropped_fk` of the source's `main`). -/
def runDroppedFk (fb : Fallback) (dfC : List RawCustomer) (dfP : List RawProduct)
    (dfS : List RawSale) : Nat :=
  (insert_orders_and_items (transform_sales fb dfS).1
    (transform_customers fb dfC).2.2
    (buildKeyMap (((transform_customers fb dfC).1).map (fun c => pyStrOfOpt c.email)))
    (transform_products dfP dfS).2.2
    (buildKeyMap (((transform_products dfP dfS).1).map
      (fun p => p.product_name)))).2.2

theorem mem_of_mem_dedupByAux {α β : Type} [DecidableEq β] {key : α → β} :
    ∀ {seen : List β} {l : List α} {a : α}, a ∈ dedupByAux key seen l → a ∈ l := by
  intro seen l
  induction l generalizing seen with
  | nil => intro a h; simp [dedupByAux] at h
  | cons x xs ih =>
    intro a h
    by_cases hx : key x ∈ seen
    · simp only [dedupByAux, if_pos hx] at h
      exact List.mem_cons_of_mem x (ih h)
    · simp only [dedupByAux, if_neg hx, List.mem_cons] at h
      rcases h with h | h
      · exact h ▸ List.mem_cons_self x xs
      · exact List.mem_cons_of_mem x (ih h)

theorem mem_of_mem_dedupBy {α β : Type} [DecidableEq β] {key : α → β}
    {l : List α} {a : α} (h : a ∈ dedupBy key l) : a ∈ l :=
  mem_of_mem_dedupByAux h

theorem length_dedupByAux_le {α β : Type} [DecidableEq β] (key : α → β) :
    ∀ (seen : List β) (l : List α), (dedupByAux key seen l).length ≤ l.length := by
  intro seen l
  induction l generalizing seen with
  | nil => simp [dedupByAux]
  | cons x xs ih =>
    by_cases hx : key x ∈ seen
    · simp only [dedupByAux, if_pos hx, List.length_cons]
      exact le_trans (ih seen) (Nat.le_succ _)
    · simp only [dedupByAux, if_neg hx, List.length_cons]
      exact Nat.succ_le_succ (ih _)

theorem length_dedupBy_le {α β : Type} [DecidableEq β] (key : α → β) (l : List α) :
    (dedupBy key l).length ≤ l.length :=
  length_dedupByAux_le key [] l

theorem dedupByAux_key_not_seen {α β : Type} [DecidableEq β] {key : α → β} :
    ∀ {seen : List β} {l : List α} {a : α}, a ∈ dedupByAux key seen l → key a ∉ seen := by
  intro seen l
  induction l generalizing seen with
  | nil => intro a h; simp [dedupByAux] at h
  | cons x xs ih =>
    intro a h
    by_cases hx : key x ∈ seen
    · simp only [dedupByAux, if_pos hx] at h
      exact ih h
    · simp only [dedupByAux, if_neg hx, List.mem_cons] at h
      rcases h with h | h
      · exact h ▸ hx
      · have := ih h
        intro hmem
        exact this (List.mem_cons_of_mem _ hmem)

theorem pairwise_key_dedupByAux {α β : Type} [DecidableEq β] (key : α → β) :
    ∀ (seen : List β) (l : List α),
      (dedupByAux key seen l).Pairwise (fun a b => key a ≠ key b) := by
  intro seen l
  induction l generalizing seen with
  | nil => simp [dedupByAux]
  | cons x xs ih =>
    by_cases hx : key x ∈ seen
    · simp only [dedupByAux, if_pos hx]
      exact ih seen
    · simp only [dedupByAux, if_neg hx]
      refine List.Pairwise.cons ?_ (ih _)
      intro b hb
      have := dedupByAux_key_not_seen hb
      intro hxb
      exact this (hxb ▸ List.mem_cons_self _ _)

theorem pairwise_key_dedupBy {α β : Type} [DecidableEq β] (key : α → β) (l : List α) :
    (dedupBy key l).Pairwise (fun a b => key a ≠ key b) :=
  pairwise_key_dedupByAux key [] l

theorem find?_dedupByAux {α β : Type} [DecidableEq β] {key : α → β} :
    ∀ {seen : List β} {l : List α} {a : α}, a ∈ dedupByAux key seen l →
      l.find? (fun y => decide (key y = key a)) = some a := by
  intro seen l
  induction l generalizing seen with
  | nil => intro a h; simp [dedupByAux] at h
  | cons x xs ih =>
    intro a h
    by_cases hx : key x ∈ seen
    · simp only [dedupByAux, if_pos hx] at h
      have hna : key a ∉ seen := dedupByAux_key_not_seen h
      have hne : ¬ (key x = key a) := fun he => hna (he ▸ hx)
      rw [List.find?_cons_of_neg _ (by simpa using hne)]
      exact ih h
    · simp only [dedupByAux, if_neg hx, List.mem_cons] at h
      rcases h with h | h
      · subst h
        exact List.find?_cons_of_pos _ (by simp)
      · have hna : key a ∉ key x :: seen := dedupByAux_key_not_seen h
        have hne : ¬ (key x = key a) := by
          intro he
          exact hna (he ▸ List.mem_cons_self _ _)
        rw [List.find?_cons_of_neg _ (by simpa using hne)]
        exact ih h

theorem find?_dedupBy {α β : Type} [DecidableEq β] {key : α → β}
    {l : List α} {a : α} (h : a ∈ dedupBy key l) :
    l.find? (fun y => decide (key y = key a)) = some a :=
  find?_dedupByAux h

theorem resolvedList_cons_none {c2e : List (String × String)} {e2id : List (String × Nat)}
    {p2n : List (String × String)} {n2id : List (String × Nat)}
    {r : CleanedSale} (rs : List CleanedSale)
    (h : resolveSale c2e e2id p2n n2id r = none) :
    resolvedList c2e e2id p2n n2id (r :: rs) = resolvedList c2e e2id p2n n2id rs := by
  simp [resolvedList, List.filterMap_cons, h]

theorem resolvedList_cons_some {c2e : List (String × String)} {e2id : List (String × Nat)}
    {p2n : List (String × String)} {n2id : List (String × Nat)}
    {r : CleanedSale} (rs : List CleanedSale) {db_cid db_pid : Nat}
    (h : resolveSale c2e e2id p2n n2id r = some (db_cid, db_pid)) :
    resolvedList c2e e2id p2n n2id (r :: rs)
      = (r, db_cid, db_pid) :: resolvedList c2e e2id p2n n2id rs := by
  simp [resolvedList, List.filterMap_cons, h]

theorem length_resolvedList_le (c2e : List (String × String)) (e2id : List (String × Nat))
    (p2n : List (String × String)) (n2id : List (String × Nat)) (sales : List CleanedSale) :
    (resolvedList c2e e2id p2n n2id sales).length ≤ sales.length :=
  List.length_filterMap_le _ _

theorem length_resolvedList_eq_countP (c2e : List (String × String)) (e2id : List (String × Nat))
    (p2n : List (String × String)) (n2id : List (String × Nat)) :
    ∀ sales : List CleanedSale,
      (resolvedList c2e e2id p2n n2id sales).length
        = sales.countP (fun r => (resolveSale c2e e2id p2n n2id r).isSome) := by
  intro sales
  induction sales with
  | nil => rfl
  | cons r rs ih =>
    cases hres : resolveSale c2e e2id p2n n2id r with
    | none =>
      rw [resolvedList_cons_none rs hres, List.countP_cons]
      simp [hres, ih]
    | some p =>
      rw [resolvedList_cons_some rs hres, List.countP_cons]
      simp [hres, ih]

theorem countP_isSome_add_isNone {α : Type} (f : α → Option (Nat × Nat)) :
    ∀ l : List α,
      l.countP (fun r => (f r).isSome) + l.countP (fun r => (f r).isNone) = l.length := by
  intro l
  induction l with
  | nil => rfl
  | cons r rs ih =>
    rw [List.countP_cons, List.countP_cons]
    cases h : f r <;> simp [h] <;> omega

theorem length_ordersFrom : ∀ (n : Nat) (l : List (CleanedSale × Nat × Nat)),
    (ordersFrom n l).length = l.length := by
  intro n l
  induction l generalizing n with
  | nil => rfl
  | cons x xs ih =>
    obtain ⟨r, a, b⟩ := x
    simp [ordersFrom, ih]

theorem length_itemsFrom : ∀ (n : Nat) (l : List (CleanedSale × Nat × Nat)),
    (itemsFrom n l).length = l.length := by
  intro n l
  induction l generalizing n with
  | nil => rfl
  | cons x xs ih =>
    obtain ⟨r, a, b⟩ := x
    simp [itemsFrom, ih]

theorem insertLoop_eq (c2e : List (String × String)) (e2id : List (String × Nat))
    (p2n : List (String × String)) (n2id : List (String × Nat)) :
    ∀ (sales : List CleanedSale) (n : Nat),
      insertLoop c2e e2id p2n n2id n sales
        = (ordersFrom n (resolvedList c2e e2id p2n n2id sales),
           itemsFrom n (resolvedList c2e e2id p2n n2id sales),
           sales.length - (resolvedList c2e e2id p2n n2id sales).length) := by
  intro sales
  induction sales with
  | nil => intro n; rfl
  | cons r rs ih =>
    intro n
    cases hres : resolveSale c2e e2id p2n n2id r with
    | none =>
      have hle := length_resolvedList_le c2e e2id p2n n2id rs
      simp only [insertLoop, hres, ih n, resolvedList_cons_none rs hres, List.length_cons]
      refine Prod.ext rfl (Prod.ext rfl ?_)
      simp only []
      omega
    | some p =>
      obtain ⟨db_cid, db_pid⟩ := p
      simp only [insertLoop, hres, ih (n + 1), resolvedList_cons_some rs hres,
        List.length_cons, ordersFrom, itemsFrom]
      refine Prod.ext rfl (Prod.ext rfl ?_)
      simp only []
      omega

theorem revTake20_append (s suf : String) (h : 20 ≤ suf.data.length) :
    ((s ++ suf).data.reverse.take 20) = suf.data.reverse.take 20 := by
  rw [String.data_append, List.reverse_append]
  exact List.take_append_of_le_length (by simpa using h)

theorem fkNote_ne_saleIdNote (n m : Nat) : fkNote n ≠ saleIdNote m := by
  intro h
  have h20 := congrArg (fun s => s.data.reverse.take 20) h
  simp only [] at h20
  rw [show fkNote n
        = (("Dropped " ++ toString n
            ++ " sales rows during load because customer/product could not be mapped ")
          ++ "(e.g., customers dropped due to missing email).") from rfl] at h20
  rw [show saleIdNote m
        = (("Dropped " ++ toString m)
          ++ " sales rows due to missing customer_id/product_id.") from rfl] at h20
  rw [revTake20_append _ _ (by decide), revTake20_append _ _ (by decide)] at h20
  exact absurd h20 (by decide)

theorem fkNote_ne_saleInvalidNote (n m : Nat) : fkNote n ≠ saleInvalidNote m := by
  intro h
  have h20 := congrArg (fun s => s.data.reverse.take 20) h
  simp only [] at h20
  rw [show fkNote n
        = (("Dropped " ++ toString n
            ++ " sales rows during load because customer/product could not be mapped ")
          ++ "(e.g., customers dropped due to missing email).") from rfl] at h20
  rw [show saleInvalidNote m
        = (("Dropped " ++ toString m)
          ++ " sales rows due to invalid date/quantity/unit_price.") from rfl] at h20
  rw [revTake20_append _ _ (by decide), revTake20_append _ _ (by decide)] at h20
  exact absurd h20 (by decide)

theorem isNullToken_digits_short {s : String} (h : isNullToken s = true) :
    (s.toList.filter Char.isDigit).length < 10 := by
  have hle := List.length_filter_le Char.isDigit s.toList
  simp only [isNullToken, Bool.or_eq_true, decide_eq_true_eq] at h
  rcases h with ((h | h) | h) | h
  · subst h
    simp [String.toList]
  · have hdata := congrArg String.data h
    have hlen := congrArg List.length hdata
    simp only [pyLower, List.length_map] at hlen
    have : s.toList.length = 3 := by
      simpa using hlen
    omega
  · have hdata := congrArg String.data h
    have hlen := congrArg List.length hdata
    simp only [pyLower, List.length_map] at hlen
    have : s.toList.length = 4 := by
      simpa using hlen
    omega
  · have hdata := congrArg String.data h
    have hlen := congrArg List.length hdata
    simp only [pyLower, List.length_map] at hlen
    have : s.toList.length = 4 := by
      simpa using hlen
    omega

/-- C9: for every input text, `normalise_phone` keeps only the digit
characters; with fewer than ten digits the result is absent, otherwise it
is the last ten digits formatted as `+91-XXXXXXXXXX`; in particular
`"+91 98765-43210"` normalises to `"+91-9876543210"`. -/
theorem C9_normalise_phone (s : String) :
    (((pyStrip s).toList.filter Char.isDigit).length < 10 → normalise_phone (some s) = none) ∧
    (10 ≤ ((pyStrip s).toList.filter Char.isDigit).length →
      normalise_phone (some s)
        = some ("+91-" ++ String.mk (((pyStrip s).toList.filter Char.isDigit).drop
            (((pyStrip s).toList.filter Char.isDigit).length - 10)))) ∧
    normalise_phone (some "+91 98765-43210") = some "+91-9876543210" := by
  refine ⟨?_, ?_, by decide⟩
  · intro h
    by_cases ht : isNullToken (pyStrip s)
    · simp [normalise_phone, ht]
    · have h2 : (List.filter Char.isDigit (pyStrip s).data).length < 10 := h
      simp [normalise_phone, ht, h2]
  · intro h
    by_cases ht : isNullToken (pyStrip s)
    · exact absurd (isNullToken_digits_short ht) (by omega)
    · simp only [normalise_phone, ht, Bool.false_eq_true, if_false]
      rw [if_neg (by omega)]

/-- C9 witness: the general branches applied to a concrete eleven-digit
input. -/
theorem C9_witness :
    normalise_phone (some "(022) 98765-43210") = some "+91-9876543210" := by
  have h := (C9_normalise_phone "(022) 98765-43210").2.1 (by decide)
  exact h.trans (by decide)

/-- C3: `parse_date` tries the five explicit formats in the fixed
priority order `YYYY-MM-DD`, `DD/MM/YYYY`, `MM-DD-YYYY`, `MM/DD/YYYY`,
`DD-MM-YYYY` and returns the first success; on total failure it falls
back to the permissive parser month-first and then day-first; it returns
absent on the empty string and the tokens nan/none/null
(case-insensitive); and `"01-02-2024"` parses as month 1, day 2, 2024. -/
theorem C3_parse_date_priority (fb : Fallback) (s : String) :
    (isNullToken (pyStrip s) = true → parse_date fb (some s) = none) ∧
    (isNullToken (pyStrip s) = false →
      (∀ d, tryFmt .YMD '-' (pyStrip s) = some d → parse_date fb (some s) = some d) ∧
      (tryFmt .YMD '-' (pyStrip s) = none →
        (∀ d, tryFmt .DMY '/' (pyStrip s) = some d → parse_date fb (some s) = some d) ∧
        (tryFmt .DMY '/' (pyStrip s) = none →
          (∀ d, tryFmt .MDY '-' (pyStrip s) = some d → parse_date fb (some s) = some d) ∧
          (tryFmt .MDY '-' (pyStrip s) = none →
            (∀ d, tryFmt .MDY '/' (pyStrip s) = some d → parse_date fb (some s) = some d) ∧
            (tryFmt .MDY '/' (pyStrip s) = none →
              (∀ d, tryFmt .DMY '-' (pyStrip s) = some d → parse_date fb (some s) = some d) ∧
              (tryFmt .DMY '-' (pyStrip s) = none →
                parse_date fb (some s)
                  = (match fb.monthFirst (pyStrip s) with
                     | some d => some d
                     | none => fb.dayFirst (pyStrip s)))))))) ∧
    parse_date fb (some "01-02-2024") = some ⟨2024, 1, 2⟩ := by
  refine ⟨?_, ?_, rfl⟩
  · intro ht
    simp [parse_date, ht]
  · intro ht
    refine ⟨fun d h1 => ?_, fun h1 => ⟨fun d h2 => ?_, fun h2 => ⟨fun d h3 => ?_,
      fun h3 => ⟨fun d h4 => ?_, fun h4 => ⟨fun d h5 => ?_, fun h5 => ?_⟩⟩⟩⟩⟩
    all_goals
      simp_all [parse_date, tryFormats, DATE_FORMATS]

/-- C3 witness: the priority branches applied to `"15/01/2024"`, which
fails the first format and succeeds on the second. -/
theorem C3_witness :
    parse_date fbNone (some "15/01/2024") = some ⟨2024, 1, 15⟩ :=
  ((((C3_parse_date_priority fbNone "15/01/2024").2.1 (by decide)).2
    (by decide)).1) ⟨2024, 1, 15⟩ (by decide)

theorem emptyToNone_some {o : Option String} {e : String}
    (h : emptyToNone o = some e) : o = some e ∧ e ≠ "" := by
  cases o with
  | none => simp [emptyToNone] at h
  | some s =>
    by_cases hs : s = ""
    · simp [emptyToNone, hs] at h
    · simp only [emptyToNone, hs, if_false] at h
      obtain rfl : s = e := by simpa using h
      exact ⟨rfl, hs⟩

theorem custWork_email_ne_empty (fb : Fallback) (r : RawCustomer) (e : String)
    (h : (custWork fb r).email = some e) : e ≠ "" := by
  have h2 : emptyToNone (stripCustomer r).email = some e := h
  exact (emptyToNone_some h2).2

/-- C5: every cleaned customer has a non-empty email, emails are pairwise
distinct within the cleaned set, and for each cleaned customer its row is
the projection of the first surviving input row carrying that email
(keep-first deduplication). -/
theorem C5_customers_email_unique (fb : Fallback) (df : List RawCustomer) :
    (∀ c ∈ (transform_customers fb df).1, ∃ e, c.email = some e ∧ e ≠ "") ∧
    (transform_customers fb df).1.Pairwise (fun a b => a.email ≠ b.email) ∧
    (∀ c ∈ (transform_customers fb df).1,
      ∃ w, (custKept fb df).find? (fun r => decide (r.email = c.email)) = some w
        ∧ custProj w = c) := by
  have hfst : (transform_customers fb df).1 = (custDedup fb df).map custProj := rfl
  refine ⟨?_, ?_, ?_⟩
  · intro c hc
    rw [hfst] at hc
    obtain ⟨w, hw, rfl⟩ := List.mem_map.mp hc
    have hwk : w ∈ custKept fb df := mem_of_mem_dedupBy hw
    have hsome : w.email.isSome := by
      have := List.of_mem_filter hwk
      simpa using this
    obtain ⟨e, he⟩ := Option.isSome_iff_exists.mp hsome
    refine ⟨e, he, ?_⟩
    have hww : w ∈ custWorks fb df := List.mem_of_mem_filter hwk
    obtain ⟨raw, _, rfl⟩ := List.mem_map.mp hww
    exact custWork_email_ne_empty fb raw e he
  · rw [hfst]
    refine List.Pairwise.map custProj (fun a b hab => ?_)
      (pairwise_key_dedupBy (fun r : CustWork => r.email) (custKept fb df))
    simpa [custProj] using hab
  · intro c hc
    rw [hfst] at hc
    obtain ⟨w, hw, rfl⟩ := List.mem_map.mp hc
    exact ⟨w, find?_dedupBy hw, rfl⟩

/-- C5 witness: the keep-first branch applied to a concrete table with a
duplicate email and a missing email. -/
theorem C5_witness :
    ∃ w, (custKept fbNone [exCust1, exCust2, exCust3]).find?
        (fun r => decide (r.email = (custWork fbNone exCust1).email)) = some w
      ∧ custProj w = custProj (custWork fbNone exCust1) :=
  (C5_customers_email_unique fbNone [exCust1, exCust2, exCust3]).2.2
    (custProj (custWork fbNone exCust1)) (by decide)

theorem length_sub_filter {α : Type} (p : α → Bool) (l : List α) :
    l.length - (l.filter p).length = l.countP (fun a => !p a) := by
  induction l with
  | nil => rfl
  | cons x xs ih =>
    have hle := List.length_filter_le p xs
    by_cases hx : p x = true
    · rw [List.filter_cons_of_pos hx]
      simp [List.countP_cons, hx]
      omega
    · rw [List.filter_cons_of_neg hx]
      simp [List.countP_cons, hx]
      omega

/-- C6: every cleaned sale has a positive quantity, a non-negative unit
price, a present order date, subtotal equal to `round(quantity ×
unit_price, 2)` and `total_amount` equal to the subtotal; the rows
violating these checks are dropped and counted in `rows_dropped`. -/
theorem C6_sales_invariants (fb : Fallback) (dfS : List RawSale) :
    (∀ c ∈ (transform_sales fb dfS).1,
      ∃ q p d, c.quantity = some q ∧ 0 < q ∧ c.unit_price = some p ∧ 0 ≤ p
        ∧ c.order_date = some d
        ∧ c.subtotal = round2 (q * p) ∧ c.total_amount = c.subtotal) ∧
    (transform_sales fb dfS).2.rows_dropped
      = (saleWorks fb dfS).countP (fun r => !(r.customer_id.isSome && r.product_id.isSome))
        + (saleWithIds fb dfS).countP (fun r => !saleValidRow r) := by
  constructor
  · intro c hc
    have hfst : (transform_sales fb dfS).1 = (saleValid fb dfS).map toCleanSale := rfl
    rw [hfst] at hc
    obtain ⟨w, hw, rfl⟩ := List.mem_map.mp hc
    have hvr : saleValidRow w = true := List.of_mem_filter hw
    simp only [saleValidRow, Bool.and_eq_true] at hvr
    obtain ⟨⟨hdate, hq⟩, hp⟩ := hvr
    obtain ⟨d, hd⟩ := Option.isSome_iff_exists.mp hdate
    cases hqv : w.quantity with
    | none => rw [hqv] at hq; simp at hq
    | some q =>
      cases hpv : w.unit_price with
      | none => rw [hpv] at hp; simp at hp
      | some p =>
        rw [hqv] at hq
        rw [hpv] at hp
        simp only [decide_eq_true_eq] at hq hp
        refine ⟨q, p, d, ?_, hq, ?_, hp, ?_, ?_, rfl⟩
        · simpa [toCleanSale] using hqv
        · simpa [toCleanSale] using hpv
        · simpa [toCleanSale] using hd
        · simp [toCleanSale, hqv, hpv]
  · have h1 : saleWithIds fb dfS
        = (saleWorks fb dfS).filter (fun r => r.customer_id.isSome && r.product_id.isSome) := rfl
    have h2 : saleValid fb dfS = (saleWithIds fb dfS).filter saleValidRow := rfl
    have hd : (transform_sales fb dfS).2.rows_dropped
        = (saleWorks fb dfS).length - (saleWithIds fb dfS).length
          + ((saleWithIds fb dfS).length - (saleValid fb dfS).length) := rfl
    rw [hd, h2, h1, length_sub_filter, length_sub_filter]

set_option maxRecDepth 10000 in
/-- C6 witness: the invariant applied to a concrete cleaned row. -/
theorem C6_witness :
    ∃ q p d, (toCleanSale (saleWork fbNone (stripSale
        ⟨some "T1", some "C001", some "P200", some "2024-01-01", some "1",
         some "10.00", some "Done"⟩))).quantity = some q ∧ 0 < q
      ∧ (toCleanSale (saleWork fbNone (stripSale
        ⟨some "T1", some "C001", some "P200", some "2024-01-01", some "1",
         some "10.00", some "Done"⟩))).unit_price = some p ∧ 0 ≤ p
      ∧ (toCleanSale (saleWork fbNone (stripSale
        ⟨some "T1", some "C001", some "P200", some "2024-01-01", some "1",
         some "10.00", some "Done"⟩))).order_date = some d
      ∧ (toCleanSale (saleWork fbNone (stripSale
        ⟨some "T1", some "C001", some "P200", some "2024-01-01", some "1",
         some "10.00", some "Done"⟩))).subtotal = round2 (q * p)
      ∧ (toCleanSale (saleWork fbNone (stripSale
        ⟨some "T1", some "C001", some "P200", some "2024-01-01", some "1",
         some "10.00", some "Done"⟩))).total_amount
        = (toCleanSale (saleWork fbNone (stripSale
        ⟨some "T1", some "C001", some "P200", some "2024-01-01", some "1",
         some "10.00", some "Done"⟩))).subtotal :=
  (C6_sales_invariants fbNone exSalesP200).1
    (toCleanSale (saleWork fbNone (stripSale
      ⟨some "T1", some "C001", some "P200", some "2024-01-01", some "1",
       some "10.00", some "Done"⟩)))
    (by with_unfolding_all decide)

/-- C10: row conservation. For each cleaner,
`rows_read = duplicates_removed + rows_dropped + emitted`, and for the
sales stream the identity still holds after reconciliation folds the
unreconcilable rows into `rows_dropped` and sets `loaded`. -/
theorem C10_row_conservation (fb : Fallback)
    (dfC : List RawCustomer) (dfP : List RawProduct) (dfS : List RawSale) :
    ((transform_customers fb dfC).2.1.rows_read
      = (transform_customers fb dfC).2.1.duplicates_removed
        + (transform_customers fb dfC).2.1.rows_dropped
        + (transform_customers fb dfC).1.length) ∧
    ((transform_products dfP dfS).2.1.rows_read
      = (transform_products dfP dfS).2.1.duplicates_removed
        + (transform_products dfP dfS).2.1.rows_dropped
        + (transform_products dfP dfS).1.length) ∧
    ((transform_sales fb dfS).2.rows_read
      = (transform_sales fb dfS).2.duplicates_removed
        + (transform_sales fb dfS).2.rows_dropped
        + (transform_sales fb dfS).1.length) ∧
    (∃ rep, etlMain fb (some dfC) (some dfP) (some dfS) none = .completed rep
      ∧ rep.sales_qc.rows_read
        = rep.sales_qc.duplicates_removed + rep.sales_qc.rows_dropped
          + rep.sales_qc.loaded) := by
  have hcust : ∀ df : List RawCustomer,
      (transform_customers fb df).2.1.rows_read
        = (transform_customers fb df).2.1.duplicates_removed
          + (transform_customers fb df).2.1.rows_dropped
          + (transform_customers fb df).1.length := by
    intro df
    have hdd : (custDedup fb df).length ≤ (custKept fb df).length :=
      length_dedupBy_le _ _
    have hk : (custKept fb df).length ≤ (custWorks fb df).length :=
      List.length_filter_le _ _
    have hw : (custWorks fb df).length = df.length := List.length_map _ _
    show df.length = ((custKept fb df).length - (custDedup fb df).length)
        + ((custWorks fb df).length - (custKept fb df).length)
        + ((custDedup fb df).map custProj).length
    rw [List.length_map]
    omega
  have hsales : ∀ df : List RawSale,
      (transform_sales fb df).2.rows_read
        = (transform_sales fb df).2.duplicates_removed
          + (transform_sales fb df).2.rows_dropped
          + (transform_sales fb df).1.length := by
    intro df
    have hv : (saleValid fb df).length ≤ (saleWithIds fb df).length :=
      List.length_filter_le _ _
    have hwi : (saleWithIds fb df).length ≤ (saleWorks fb df).length :=
      List.length_filter_le _ _
    have hwk : (saleWorks fb df).length = (saleDedup df).length := List.length_map _ _
    have hdd : (saleDedup df).length ≤ (df.map stripSale).length :=
      length_dedupBy_le _ _
    have hst : (df.map stripSale).length = df.length := List.length_map _ _
    show df.length = (df.length - (saleDedup df).length)
        + (((saleWorks fb df).length - (saleWithIds fb df).length)
          + ((saleWithIds fb df).length - (saleValid fb df).length))
        + ((saleValid fb df).map toCleanSale).length
    rw [List.length_map]
    omega
  refine ⟨hcust dfC, ?_, hsales dfS, ?_⟩
  · have hdd : (prodDedup dfP dfS).length ≤ (prodKept dfP dfS).length :=
      length_dedupBy_le _ _
    have hk : (prodKept dfP dfS).length ≤ (prodFilled dfP dfS).length :=
      List.length_filter_le _ _
    have hf : (prodFilled dfP dfS).length = (prodWorks dfP).length := List.length_map _ _
    have hw : (prodWorks dfP).length = dfP.length := List.length_map _ _
    show dfP.length = ((prodKept dfP dfS).length - (prodDedup dfP dfS).length)
        + ((prodFilled dfP dfS).length - (prodKept dfP dfS).length)
        + ((prodDedup dfP dfS).map toCleanProduct).length
    rw [List.length_map]
    omega
  · refine ⟨_, rfl, ?_⟩
    unfold loadedReport
    dsimp only
    have hbase := hsales dfS
    have hfk : ∀ (sc : List CleanedSale) (c2e : List (String × String))
        (e2id : List (String × Nat)) (p2n : List (String × String))
        (n2id : List (String × Nat)),
        (insert_orders_and_items sc c2e e2id p2n n2id).2.2 ≤ sc.length := by
      intro sc c2e e2id p2n n2id
      unfold insert_orders_and_items
      rw [insertLoop_eq]
      exact Nat.sub_le _ _
    have hfk2 := hfk (transform_sales fb dfS).1
      (transform_customers fb dfC).2.2
      (buildKeyMap (((transform_customers fb dfC).1).map (fun c => pyStrOfOpt c.email)))
      (transform_products dfP dfS).2.2
      (buildKeyMap (((transform_products dfP dfS).1).map (fun p => p.product_name)))
    by_cases hz : (insert_orders_and_items (transform_sales fb dfS).1
        (transform_customers fb dfC).2.2
        (buildKeyMap (((transform_customers fb dfC).1).map (fun c => pyStrOfOpt c.email)))
        (transform_products dfP dfS).2.2
        (buildKeyMap (((transform_products dfP dfS).1).map
          (fun p => p.product_name)))).2.2 = 0
    · simp only [hz, ne_eq, not_true_eq_false, if_false, ite_false]
      simp only [hz] at hfk2 ⊢
      omega
    · simp only [hz, ne_eq, not_false_eq_true, if_true, ite_true]
      omega

set_option maxRecDepth 40000 in
/-- C1 counterexample: on a products table whose price texts are `"abc"`
(non-numeric) and `"-5"` (negative) with no sales, `transform_products`
keeps both rows and emits prices `NaN` and `-5`: the cleaned price is
neither always present nor always non-negative. -/
theorem C1_counterexample :
    ((transform_products [exProdAbc, exProdNeg] []).1.map (fun c => c.price))
        = [none, some (-5)]
      ∧ ¬ (∀ c ∈ (transform_products [exProdAbc, exProdNeg] []).1,
          ∃ q, c.price = some q ∧ 0 ≤ q) := by
  refine ⟨by with_unfolding_all decide, ?_⟩
  intro hall
  obtain ⟨q, hq, hq0⟩ := hall ⟨"Widget A", "Electronics", none, 1⟩
    (by with_unfolding_all decide)
  simp at hq

/-- C1 (amended): every cleaned product record comes from a row whose
price string is present after imputation (rows still missing a price are
dropped before emission), and its numeric price is exactly the numeric
coercion of that string — which may be absent (non-numeric text) or
negative; presence and non-negativity of the numeric value are not
enforced. -/
theorem C1_amended_price_string_present (dfP : List RawProduct) (dfS : List RawSale) :
    ∀ c ∈ (transform_products dfP dfS).1,
      ∃ w ∈ prodDedup dfP dfS, c = toCleanProduct w
        ∧ ∃ s, w.price = some s ∧ c.price = toNum s := by
  intro c hc
  have hfst : (transform_products dfP dfS).1
      = (prodDedup dfP dfS).map toCleanProduct := rfl
  rw [hfst] at hc
  obtain ⟨w, hw, rfl⟩ := List.mem_map.mp hc
  refine ⟨w, hw, rfl, ?_⟩
  have hkept : w ∈ prodKept dfP dfS := mem_of_mem_dedupBy hw
  have hsome : w.price.isSome := by
    simpa using List.of_mem_filter hkept
  obtain ⟨s, hs⟩ := Option.isSome_iff_exists.mp hsome
  exact ⟨s, hs, by simp [toCleanProduct, hs]⟩

set_option maxRecDepth 40000 in
/-- C1 witness: the amended statement at a concrete one-row table. -/
theorem C1_witness :
    ∃ w ∈ prodDedup [exProdNeg] [],
      (⟨"Widget B", "Fashion", some (-5), 2⟩ : CleanedProduct) = toCleanProduct w
        ∧ ∃ s, w.price = some s
          ∧ (⟨"Widget B", "Fashion", some (-5), 2⟩ : CleanedProduct).price = toNum s :=
  C1_amended_price_string_present [exProdNeg] []
    ⟨"Widget B", "Fashion", some (-5), 2⟩ (by with_unfolding_all decide)

set_option maxRecDepth 40000 in
/-- C8 counterexample: a product row with stock text `"-5"` is emitted
with `stock_quantity = -5`, so stock is not guaranteed non-negative. -/
theorem C8_counterexample :
    ((transform_products [exProdStockNeg] []).1.map (fun c => c.stock_quantity)) = [-5]
      ∧ ¬ (∀ c ∈ (transform_products [exProdStockNeg] []).1, 0 ≤ c.stock_quantity) := by
  refine ⟨by with_unfolding_all decide, ?_⟩
  intro hall
  exact absurd (hall ⟨"Widget C", "Groceries", some (999 / 100), -5⟩
    (by with_unfolding_all decide)) (by decide)

/-- C8 (amended): every cleaned product's `stock_quantity` is the integer
truncation of the numeric coercion of its stock string, where empty or
missing stock cells were first filled with `"0"` (and counted once each
in `missing_filled` together with the price fills) and failed coercions
default to 0; negative numeric stock values pass through unchanged. -/
theorem C8_amended_stock_integer (dfP : List RawProduct) (dfS : List RawSale) :
    (∀ c ∈ (transform_products dfP dfS).1,
      ∃ w ∈ prodDedup dfP dfS, c = toCleanProduct w
        ∧ c.stock_quantity = pyInt ((toNum w.stock_str).getD 0)
        ∧ (toNum w.stock_str = none → c.stock_quantity = 0)) ∧
    (∀ r : RawProduct,
      ((stripProduct r).stock_quantity = none ∨ (stripProduct r).stock_quantity = some "") →
      (prodWork r).stock_str = "0") ∧
    (transform_products dfP dfS).2.1.missing_filled
      = stockMissingCount dfP + prodFilledCount dfP dfS := by
  refine ⟨?_, ?_, rfl⟩
  · intro c hc
    have hfst : (transform_products dfP dfS).1
        = (prodDedup dfP dfS).map toCleanProduct := rfl
    rw [hfst] at hc
    obtain ⟨w, hw, rfl⟩ := List.mem_map.mp hc
    refine ⟨w, hw, rfl, rfl, ?_⟩
    intro hn
    simp [toCleanProduct, hn]
    decide
  · intro r hr
    show fillEmpty0 (stripProduct r).stock_quantity = "0"
    rcases hr with hr | hr <;> simp [fillEmpty0, hr]

set_option maxRecDepth 40000 in
/-- C8 witness: the amended statement at a concrete one-row table. -/
theorem C8_witness :
    ∃ w ∈ prodDedup [exProdStockNeg] [],
      (⟨"Widget C", "Groceries", some (999 / 100), -5⟩ : CleanedProduct) = toCleanProduct w
        ∧ (⟨"Widget C", "Groceries", some (999 / 100), -5⟩ : CleanedProduct).stock_quantity
            = pyInt ((toNum w.stock_str).getD 0)
        ∧ (toNum w.stock_str = none
            → (⟨"Widget C", "Groceries", some (999 / 100), -5⟩ : CleanedProduct).stock_quantity = 0) :=
  (C8_amended_stock_integer [exProdStockNeg] []).1
    ⟨"Widget C", "Groceries", some (999 / 100), -5⟩ (by with_unfolding_all decide)

/-- C4: for every product row with an absent/empty price, the cleaner
fills the price with the two-decimal rendering of the median of the
numerically coercible unit prices of the sales rows referencing that raw
product identifier; if no median exists (in particular if no sales row
references the product) the price stays absent, and such rows are gone
from the kept set; each price fill adds one to `missing_filled` on top of
the stock fills. -/
theorem C4_price_imputation (dfP : List RawProduct) (dfS : List RawSale) :
    (∀ r ∈ prodWorks dfP, r.price = none →
      (∀ m, median_by_pid dfS (pyStrOfOpt r.product_id) = some m →
        (fillPrice dfS r).price = some (fmt2str m)) ∧
      (median_by_pid dfS (pyStrOfOpt r.product_id) = none →
        (fillPrice dfS r).price = none)) ∧
    (∀ pid, (∀ r ∈ salesForMedian dfS, pyStrOfOpt r.product_id ≠ pid) →
      median_by_pid dfS pid = none) ∧
    (∀ r ∈ prodKept dfP dfS, r.price.isSome) ∧
    (transform_products dfP dfS).2.1.missing_filled
      = stockMissingCount dfP
        + (prodWorks dfP).countP
            (fun r => decide (r.price = none)
              && (median_by_pid dfS (pyStrOfOpt r.product_id)).isSome) := by
  refine ⟨?_, ?_, ?_, rfl⟩
  · intro r _ hnone
    constructor
    · intro m hm
      simp [fillPrice, hnone, hm]
    · intro hm
      simp [fillPrice, hnone, hm]
  · intro pid hnone
    have hg : groupVals dfS pid = [] := by
      unfold groupVals
      rw [List.filterMap_eq_nil_iff]
      intro r hr
      rw [if_neg (hnone r hr)]
    show medianQ (groupVals dfS pid) = none
    rw [hg]
    rfl
  · intro r hr
    simpa using List.of_mem_filter hr

set_option maxRecDepth 40000 in
/-- C4 witness: the `P200` scenario — empty price, referencing sales
unit prices 10, 12, 14, median 12, formatted `"12.00"`. -/
theorem C4_witness :
    (fillPrice exSalesP200 (prodWork exProdP200)).price = some "12.00" := by
  have h := ((C4_price_imputation [exProdP200] exSalesP200).1 (prodWork exProdP200)
    (by with_unfolding_all decide) (by with_unfolding_all decide)).1 12
    (by with_unfolding_all decide)
  exact h.trans (by with_unfolding_all decide)

/-- C2 counterexample: with the customers source missing (and storage
healthy), the run aborts before the report stage — no quality report is
produced, contradicting the claim that a SourceMissing termination still
yields the report. -/
theorem C2_counterexample :
    producesReport (etlMain fbNone none (some []) (some []) none) = false := rfl

/-- C2 (amended): a missing input source aborts the run before the
transforms and produces no report (the three sources are checked in the
order customers, products, sales); a storage failure, wherever in the
load stage the `mysql.connector.Error` is raised, still produces the
quality report, and its run-level notes contain the note describing the
failure. -/
theorem C2_amended_report_on_storage_failure_only (fb : Fallback) :
    (∀ f, producesReport (.sourceMissing f) = false) ∧
    (∀ dfP dfS dbe, etlMain fb none dfP dfS dbe = .sourceMissing "customers_raw.csv") ∧
    (∀ dfC dfS dbe, etlMain fb (some dfC) none dfS dbe = .sourceMissing "products_raw.csv") ∧
    (∀ dfC dfP dbe, etlMain fb (some dfC) (some dfP) none dbe
      = .sourceMissing "sales_raw.csv") ∧
    (∀ dfC dfP dfS (pt : DbFailurePoint) msg,
      ∃ rep, etlMain fb (some dfC) (some dfP) (some dfS) (some (pt, msg)) = .completed rep
        ∧ mysqlNote msg ∈ rep.extra_notes) := by
  refine ⟨fun _ => rfl, fun _ _ _ => rfl, fun _ _ _ => rfl, fun _ _ _ => rfl, ?_⟩
  intro dfC dfP dfS pt msg
  cases pt with
  | beforeCustomers => exact ⟨_, rfl, List.mem_singleton_self _⟩
  | beforeProducts => exact ⟨_, rfl, List.mem_singleton_self _⟩
  | beforeOrders => exact ⟨_, rfl, List.mem_singleton_self _⟩
  | atClose =>
    refine ⟨_, rfl, ?_⟩
    exact List.mem_append_right _ (List.mem_singleton_self _)

/-- C7: a cleaned sale resolves exactly when its raw customer reference
maps to a non-empty email that maps to a surrogate customer key, and its
raw product reference maps to a non-empty name that maps to a surrogate
product key; the loop emits exactly one order and one item per resolved
row, in input order with consecutive surrogate order keys, and counts
every unresolved row in the returned drop counter; at the run level that
counter is added to the sales stream's `rows_dropped` and, when nonzero,
a note is emitted whose text differs from both transform-stage drop
notes. -/
theorem C7_reconciliation (sales : List CleanedSale) (c2e : List (String × String))
    (e2id : List (String × Nat)) (p2n : List (String × String))
    (n2id : List (String × Nat)) :
    (∀ r : CleanedSale, (resolveSale c2e e2id p2n n2id r).isSome
      ↔ ∃ e cid nm pid, dget c2e (pyStrOfOpt r.customer_id) = some e ∧ e ≠ ""
          ∧ dget e2id e = some cid
          ∧ dget p2n (pyStrOfOpt r.product_id) = some nm ∧ nm ≠ ""
          ∧ dget n2id nm = some pid) ∧
    (insert_orders_and_items sales c2e e2id p2n n2id
      = (ordersFrom 1 (resolvedList c2e e2id p2n n2id sales),
         itemsFrom 1 (resolvedList c2e e2id p2n n2id sales),
         sales.countP (fun r => (resolveSale c2e e2id p2n n2id r).isNone))) ∧
    ((insert_orders_and_items sales c2e e2id p2n n2id).1.length
        = (resolvedList c2e e2id p2n n2id sales).length
      ∧ (insert_orders_and_items sales c2e e2id p2n n2id).2.1.length
        = (resolvedList c2e e2id p2n n2id sales).length) ∧
    (∀ n m, fkNote n ≠ saleIdNote m ∧ fkNote n ≠ saleInvalidNote m) ∧
    (∀ (fb : Fallback) (dfC : List RawCustomer) (dfP : List RawProduct)
        (dfS : List RawSale),
      ∃ rep, etlMain fb (some dfC) (some dfP) (some dfS) none = .completed rep
        ∧ rep.sales_qc.rows_dropped
            = (transform_sales fb dfS).2.rows_dropped + runDroppedFk fb dfC dfP dfS
        ∧ (runDroppedFk fb dfC dfP dfS ≠ 0
            → fkNote (runDroppedFk fb dfC dfP dfS) ∈ rep.extra_notes)) := by
  refine ⟨?_, ?_, ?_, fun n m => ⟨fkNote_ne_saleIdNote n m, fkNote_ne_saleInvalidNote n m⟩, ?_⟩
  · intro r
    constructor
    · intro hs
      unfold resolveSale at hs
      dsimp only at hs
      cases hc : dget c2e (pyStrOfOpt r.customer_id) with
      | none => rw [hc] at hs; simp at hs
      | some e =>
        rw [hc] at hs
        dsimp only at hs
        by_cases he : e = ""
        · rw [if_pos he] at hs; simp at hs
        · rw [if_neg he] at hs
          cases hcid : dget e2id e with
          | none => rw [hcid] at hs; simp at hs
          | some cid =>
            rw [hcid] at hs
            dsimp only at hs
            cases hp : dget p2n (pyStrOfOpt r.product_id) with
            | none => rw [hp] at hs; simp at hs
            | some nm =>
              rw [hp] at hs
              dsimp only at hs
              by_cases hn : nm = ""
              · rw [if_pos hn] at hs; simp at hs
              · rw [if_neg hn] at hs
                cases hpid : dget n2id nm with
                | none => rw [hpid] at hs; simp at hs
                | some pid =>
                  exact ⟨e, cid, nm, pid, rfl, he, hcid, rfl, hn, hpid⟩
    · rintro ⟨e, cid, nm, pid, hc, he, hcid, hp, hn, hpid⟩
      unfold resolveSale
      dsimp only
      rw [hc]
      dsimp only
      rw [if_neg he, hcid]
      dsimp only
      rw [hp]
      dsimp only
      rw [if_neg hn, hpid]
      rfl
  · unfold insert_orders_and_items
    rw [insertLoop_eq]
    have h1 := length_resolvedList_eq_countP c2e e2id p2n n2id sales
    have h2 := countP_isSome_add_isNone (resolveSale c2e e2id p2n n2id) sales
    refine Prod.ext rfl (Prod.ext rfl ?_)
    simp only []
    omega
  · constructor
    · show (insertLoop c2e e2id p2n n2id 1 sales).1.length = _
      rw [insertLoop_eq]
      exact length_ordersFrom 1 _
    · show (insertLoop c2e e2id p2n n2id 1 sales).2.1.length = _
      rw [insertLoop_eq]
      exact length_itemsFrom 1 _
  · intro fb dfC dfP dfS
    refine ⟨_, rfl, ?_, ?_⟩
    all_goals unfold loadedReport
    all_goals dsimp only
    · by_cases hz : runDroppedFk fb dfC dfP dfS = 0
      · have hz2 := hz
        unfold runDroppedFk at hz2
        simp only [hz2, ne_eq, not_true_eq_false, if_false, ite_false]
        rw [hz]
        omega
      · have hz2 := hz
        unfold runDroppedFk at hz2
        simp only [ne_eq, hz2, not_false_eq_true, if_true, ite_true]
        rfl
    · intro hz
      have hz2 := hz
      unfold runDroppedFk at hz2
      simp only [ne_eq, hz2, not_false_eq_true, if_true, ite_true]
      exact List.mem_append_left _ (List.mem_singleton_self _)

set_option maxRecDepth 40000 in
/-- C7 witness: the resolution characterisation applied to one concrete
sale row and concrete two-stage maps. -/
theorem C7_witness :
    (resolveSale [("C001", "a@x.com")] [("a@x.com", 1)] [("P200", "Widget D")]
      [("Widget D", 2)]
      (toCleanSale (saleWork fbNone (stripSale
        ⟨some "T1", some "C001", some "P200", some "2024-01-01", some "1",
         some "10.00", some "Done"⟩)))).isSome :=
  ((C7_reconciliation [] [("C001", "a@x.com")] [("a@x.com", 1)]
    [("P200", "Widget D")] [("Widget D", 2)]).1 _).mpr
    ⟨"a@x.com", 1, "Widget D", 2, by with_unfolding_all decide, by decide,
     by with_unfolding_all decide, by with_unfolding_all decide, by decide,
     by with_unfolding_all decide⟩
